import Mathlib

/-!
Shallow embedding of the Forge deployment action (`src/index.js`):
an API-client response model, the trigger call (`createDeployment`),
the status and log fetch helpers (`getDeploymentStatus`,
`getDeploymentOutput`), the incremental log display (`displayLogs`),
the polling loop (`pollDeployment`) modelled as a step function over an
explicit session state driven by one `PollInput` per timer tick, and the
`main` orchestration.  Theorems about the spec's claims follow the
definitions.
-/

namespace Forge

/-- `POLL_INTERVAL` from index.js: 10 seconds, in milliseconds. -/
def POLL_INTERVAL : Nat := 10000

/-- `TIMEOUT` from index.js: 10 minutes, in milliseconds. -/
def TIMEOUT : Nat := 600000

/-- Outcome of one `makeForgeRequest` call: either the promise resolved
with `{statusCode, data}` (`ok`), or it rejected (`err`) with a message —
covering both transport errors (`Request failed: ...`) and JSON parse
errors (`Failed to parse JSON response: ...`). -/
inductive ApiResponse (α : Type) where
  | ok (statusCode : Nat) (data : α)
  | err (message : String)
deriving DecidableEq

/-- The fixed status-code lookup table inside `handleApiError`. -/
def errorMessageFor (statusCode : Nat) : Option String :=
  match statusCode with
  | 401 => some "Authentication failed. Please check your FORGE_API_TOKEN."
  | 403 => some "Access forbidden. You do not have permission to perform this action."
  | 404 => some "Resource not found. Please check your organization, server, and site IDs."
  | 422 => some "Unprocessable entity. Invalid request data."
  | 429 => some "Rate limit exceeded. Please try again later."
  | 500 => some "Forge server error. Please try again later."
  | 503 => some "Forge is offline for maintenance."
  | _ => none

/-- `handleApiError(statusCode, data)`: builds and throws an error message;
we model the thrown message.  `detailsMsg` is `data?.message`. -/
def handleApiError (statusCode : Nat) (detailsMsg : Option String) : String :=
  let message := (errorMessageFor statusCode).getD
    ("API request failed with status " ++ toString statusCode)
  let details := detailsMsg.getD ""
  message ++ (if details ≠ "" then " - " ++ details else "")

/-- `response.data.data` of the trigger call; its `id` field may be absent
(JavaScript `undefined`), modelled as `none`. -/
structure TriggerData where
  id : Option Nat
deriving DecidableEq

/-- The parsed body of the trigger response.  `dataField` is
`response.data.data` (absent when the body is `null` or has no `data`
object, in which case the property access throws), and `message` is
`response.data.message`, read by `handleApiError`. -/
structure TriggerBody where
  dataField : Option TriggerData
  message : Option String
deriving DecidableEq

/-- Message of the TypeError raised by reading a property of `undefined`
(e.g. `response.data.data.id` when `data.data` is missing). -/
def typeErrorUndefined : String := "Cannot read properties of undefined"

/-- `createDeployment()`: rethrows a rejected request, classifies any
non-202 status through `handleApiError` (fatal), and otherwise returns
`response.data.data.id` — which is `undefined` (`none`) when the 202
payload's data object has no `id` field, and throws a TypeError when the
data object itself is missing. -/
def createDeployment (response : ApiResponse (Option TriggerBody)) :
    Except String (Option Nat) :=
  match response with
  | .err m => .error m
  | .ok statusCode body =>
    if statusCode ≠ 202 then
      .error (handleApiError statusCode (body.bind (fun b => b.message)))
    else
      match body with
      | none => .error typeErrorUndefined
      | some b =>
        match b.dataField with
        | none => .error typeErrorUndefined
        | some d => .ok d.id

/-- `response.data.data.attributes` of the status call; the code only
reads its `status` field. -/
structure StatusAttrs where
  status : String
deriving DecidableEq

/-- `getDeploymentStatus(deploymentId)`: returns the attributes object on
a 200 response, and `null` (`none`) on any error — a rejected request
(transport or parse error), a non-200 status (via the `handleApiError`
throw, caught locally), or a missing `data.data.attributes` path
(modelled by `.ok 200 none`). -/
def getDeploymentStatus (response : ApiResponse (Option StatusAttrs)) :
    Option StatusAttrs :=
  match response with
  | .err _ => none
  | .ok statusCode attrs => if statusCode ≠ 200 then none else attrs

/-- `response.data.data.attributes` of the log call: `output` is the
optional `output` field (`attributes?.output`). -/
structure LogAttrs where
  output : Option String
deriving DecidableEq

/-- `getDeploymentOutput(deploymentId)`: `null` on a rejected request or a
non-200 status or a missing `data.data` object (the property access
throws and is caught); otherwise `attributes?.output || ''`. -/
def getDeploymentOutput (response : ApiResponse (Option LogAttrs)) :
    Option String :=
  match response with
  | .err _ => none
  | .ok statusCode body =>
    if statusCode ≠ 200 then none
    else
      match body with
      | none => none
      | some attrs => some (attrs.output.getD "")

/-- The WhiteSpace/LineTerminator character class stripped by JavaScript
`String.prototype.trim`. -/
def isJsWhitespace (c : Char) : Bool :=
  [' ', '\t', '\n', '\x0b', '\x0c', '\r', '\xa0', '\u1680',
   '\u2000', '\u2001', '\u2002', '\u2003', '\u2004', '\u2005', '\u2006',
   '\u2007', '\u2008', '\u2009', '\u200a', '\u2028', '\u2029', '\u202f',
   '\u205f', '\u3000', '\ufeff'].contains c

/-- Truthiness of `s.trim()`: true iff `s` has a non-whitespace character. -/
def hasNonWhitespace (s : String) : Bool :=
  s.data.any (fun c => ! isJsWhitespace c)

/-- `displayLogs(output, lastDisplayedLength)`: returns the displayed
increment (if any) together with the value the function returns (the new
`lastDisplayedLength`).  Mirrors index.js: falsy or not-longer output
returns the cursor unchanged; otherwise the suffix past the cursor is
printed when `newContent.trim()` is truthy, and `output.length` is
returned either way. -/
def displayLogs (output : String) (lastDisplayedLength : Nat) :
    Option String × Nat :=
  if output = "" ∨ output.length ≤ lastDisplayedLength then
    (none, lastDisplayedLength)
  else
    let newContent := output.drop lastDisplayedLength
    if hasNonWhitespace newContent then
      (some newContent, output.length)
    else
      (none, output.length)

/-- How one poll resolves the `pollDeployment` promise:
`resolved {status, output}` or `rejected (Error message)`. -/
inductive Resolution where
  | resolved (status : String) (output : Option String)
  | rejected (message : String)
deriving DecidableEq

/-- The mutable state of `pollDeployment`: `lastDisplayedLength`,
`lastStatus`, and whether the promise has settled (after `clearInterval`
the timer never fires again, which we model by making settled states
absorbing). -/
structure PollState where
  lastDisplayedLength : Nat
  lastStatus : String
  resolution : Option Resolution
deriving DecidableEq

/-- State at the top of `pollDeployment`. -/
def initialPollState : PollState :=
  { lastDisplayedLength := 0, lastStatus := "", resolution := none }

/-- The network calls a poll cycle can issue. -/
inductive Request where
  | statusFetch
  | logFetch
  | finalLogFetch
deriving DecidableEq

/-- The environment one timer tick runs against: the elapsed wall-clock
time `Date.now() - startTime` at the top of the callback, and the
responses the three possible requests of this cycle would receive. -/
structure PollInput where
  elapsed : Nat
  statusResponse : ApiResponse (Option StatusAttrs)
  logResponse : ApiResponse (Option LogAttrs)
  finalLogResponse : ApiResponse (Option LogAttrs)
deriving DecidableEq

/-- Observable events of one poll cycle: requests issued, the
`📊 Status:` line (if printed), the incremental log block (if printed),
and the `--- Final Deployment Output ---` dump (if printed). -/
structure CycleEvents where
  requests : List Request
  statusNotification : Option String
  displayedIncrement : Option String
  finalDump : Option String
deriving DecidableEq

/-- A tick on which nothing happens (settled session). -/
def noEvents : CycleEvents :=
  { requests := [], statusNotification := none,
    displayedIncrement := none, finalDump := none }

/-- The log-fetch-and-display part of a cycle: `getDeploymentOutput`
followed by `if (output) { lastDisplayedLength = displayLogs(...) }`.
Returns the displayed increment and the new `lastDisplayedLength`. -/
def cycleDisplay (st : PollState) (inp : PollInput) : Option String × Nat :=
  match getDeploymentOutput inp.logResponse with
  | some o =>
    if o ≠ "" then displayLogs o st.lastDisplayedLength
    else (none, st.lastDisplayedLength)
  | none => (none, st.lastDisplayedLength)

/-- `if (finalOutput) { console.error(finalOutput) }`: the dump printed on
a terminal failure, given `getDeploymentOutput`'s result for the final
fetch. -/
def finalDumpOf (finalOutput : Option String) : Option String :=
  match finalOutput with
  | some f => if f ≠ "" then some f else none
  | none => none

/-- One firing of the `setInterval` callback in `pollDeployment`.  A
settled session does nothing (`clearInterval` has stopped the timer).
Otherwise, in source order: the timeout check (before any network call);
`getDeploymentStatus` (a `null` result skips the cycle); the
status-change notification; `getDeploymentOutput` plus `displayLogs`; and
the terminal checks for `finished`, `failed`/`failed-build` (with the
dedicated final log fetch and dump) and `cancelled`. -/
def pollStep (st : PollState) (inp : PollInput) : PollState × CycleEvents :=
  match st.resolution with
  | some _ => (st, noEvents)
  | none =>
    if inp.elapsed > TIMEOUT then
      ({ st with resolution := some (.rejected "Deployment timeout") }, noEvents)
    else
      match getDeploymentStatus inp.statusResponse with
      | none => (st, { noEvents with requests := [.statusFetch] })
      | some deployment =>
        let status := deployment.status
        let notif : Option String :=
          if status ≠ st.lastStatus then some status else none
        let lastStatus' := if status ≠ st.lastStatus then status else st.lastStatus
        let disp := cycleDisplay st inp
        if status = "finished" then
          ({ lastDisplayedLength := disp.2, lastStatus := lastStatus',
             resolution := some (.resolved status (getDeploymentOutput inp.logResponse)) },
           { requests := [.statusFetch, .logFetch], statusNotification := notif,
             displayedIncrement := disp.1, finalDump := none })
        else if status = "failed" ∨ status = "failed-build" then
          ({ lastDisplayedLength := disp.2, lastStatus := lastStatus',
             resolution := some (.rejected ("Deployment " ++ status)) },
           { requests := [.statusFetch, .logFetch, .finalLogFetch],
             statusNotification := notif, displayedIncrement := disp.1,
             finalDump := finalDumpOf (getDeploymentOutput inp.finalLogResponse) })
        else if status = "cancelled" then
          ({ lastDisplayedLength := disp.2, lastStatus := lastStatus',
             resolution := some (.rejected "Deployment was cancelled") },
           { requests := [.statusFetch, .logFetch], statusNotification := notif,
             displayedIncrement := disp.1, finalDump := none })
        else
          ({ lastDisplayedLength := disp.2, lastStatus := lastStatus',
             resolution := none },
           { requests := [.statusFetch, .logFetch], statusNotification := notif,
             displayedIncrement := disp.1, finalDump := none })

/-- Run the polling loop from a given state over a list of tick inputs,
collecting the per-cycle events. -/
def runPollFrom (st : PollState) (inputs : List PollInput) :
    PollState × List CycleEvents :=
  match inputs with
  | [] => (st, [])
  | inp :: rest =>
    let step := pollStep st inp
    let tail := runPollFrom step.1 rest
    (tail.1, step.2 :: tail.2)

/-- `pollDeployment` from its initial state. -/
def runPoll (inputs : List PollInput) : PollState × List CycleEvents :=
  runPollFrom initialPollState inputs

/-- The spec's state names (§4.3) for a session state. -/
inductive SpecState where
  | RUNNING
  | SUCCEEDED
  | FAILED
  | TIMED_OUT
deriving DecidableEq

/-- Classify a session state into the spec's state machine: an unsettled
promise is `RUNNING`, a resolved one `SUCCEEDED`, a rejection with the
timeout message `TIMED_OUT`, any other rejection `FAILED`. -/
def specState (st : PollState) : SpecState :=
  match st.resolution with
  | none => .RUNNING
  | some (.resolved _ _) => .SUCCEEDED
  | some (.rejected m) =>
    if m = "Deployment timeout" then .TIMED_OUT else .FAILED

/-- The four environment variables read at startup (`process.env` values
may be absent). -/
structure Env where
  FORGE_API_TOKEN : Option String
  FORGE_ORGANIZATION : Option String
  FORGE_SERVER_ID : Option String
  FORGE_SITE_ID : Option String
deriving DecidableEq

/-- JavaScript truthiness of an optional environment string: `undefined`
and `''` are falsy. -/
def jsTruthy : Option String → Bool
  | none => false
  | some s => s ≠ ""

/-- The `required` object of `validateEnvironment`, in source order. -/
def requiredVars (env : Env) : List (String × Option String) :=
  [("FORGE_API_TOKEN", env.FORGE_API_TOKEN),
   ("FORGE_ORGANIZATION", env.FORGE_ORGANIZATION),
   ("FORGE_SERVER_ID", env.FORGE_SERVER_ID),
   ("FORGE_SITE_ID", env.FORGE_SITE_ID)]

/-- The `missing` list of `validateEnvironment`: names of the required
variables whose value is falsy. -/
def missingVars (env : Env) : List String :=
  ((requiredVars env).filter (fun p => ! jsTruthy p.2)).map Prod.fst

/-- `validateEnvironment()`: exits with the list of missing names when
any required variable is falsy. -/
def validateEnvironment (env : Env) : Except (List String) Unit :=
  if missingVars env = [] then .ok () else .error (missingVars env)

/-- Observable outcome of `main()`: the exit code (`none` when the
session never settles), the missing-variable names printed by
`validateEnvironment`, how many times the trigger request was issued,
whether the polling phase was entered, and the fatal error message
printed by the final catch. -/
structure MainResult where
  exitCode : Option Nat
  missingReported : List String
  triggerAttempts : Nat
  enteredPolling : Bool
  finalError : Option String
deriving DecidableEq

/-- `main()`: validate the environment (exit 1 before any network call on
failure), issue the single trigger call (exit 1 on its error without
polling), then poll until the session settles; exit 0 on resolution and
1 on rejection. -/
def main (env : Env) (triggerResponse : ApiResponse (Option TriggerBody))
    (pollInputs : List PollInput) : MainResult :=
  match validateEnvironment env with
  | .error missing =>
    { exitCode := some 1, missingReported := missing, triggerAttempts := 0,
      enteredPolling := false, finalError := none }
  | .ok _ =>
    match createDeployment triggerResponse with
    | .error msg =>
      { exitCode := some 1, missingReported := [], triggerAttempts := 1,
        enteredPolling := false, finalError := some msg }
    | .ok _deploymentId =>
      match (runPoll pollInputs).1.resolution with
      | some (.resolved _ _) =>
        { exitCode := some 0, missingReported := [], triggerAttempts := 1,
          enteredPolling := true, finalError := none }
      | some (.rejected m) =>
        { exitCode := some 1, missingReported := [], triggerAttempts := 1,
          enteredPolling := true, finalError := some m }
      | none =>
        { exitCode := none, missingReported := [], triggerAttempts := 1,
          enteredPolling := true, finalError := none }

/-- The `📊 Status:` notifications of a run, in order. -/
def notificationsOf (evs : List CycleEvents) : List String :=
  evs.filterMap (fun ev => ev.statusNotification)

/-! ### Basic lemmas about the polling step -/

/-- A settled session ignores a tick (the interval has been cleared). -/
lemma pollStep_settled (st : PollState) (inp : PollInput) (r : Resolution)
    (h : st.resolution = some r) : pollStep st inp = (st, noEvents) := by
  unfold pollStep
  rw [h]

/-- A settled session ignores every remaining tick. -/
lemma runPollFrom_settled (st : PollState) (inputs : List PollInput)
    (r : Resolution) (h : st.resolution = some r) :
    runPollFrom st inputs = (st, inputs.map (fun _ => noEvents)) := by
  induction inputs with
  | nil => rfl
  | cons inp rest ih =>
    simp only [runPollFrom, pollStep_settled st inp r h, ih, List.map_cons]

/-- The timeout branch: checked first, before any request. -/
lemma pollStep_timeout (st : PollState) (inp : PollInput)
    (h0 : st.resolution = none) (h1 : inp.elapsed > TIMEOUT) :
    pollStep st inp =
      ({ st with resolution := some (.rejected "Deployment timeout") },
       noEvents) := by
  unfold pollStep
  rw [h0]
  simp only [if_pos h1]

/-- A failed status fetch skips the cycle without touching the state. -/
lemma pollStep_statusNone (st : PollState) (inp : PollInput)
    (h0 : st.resolution = none) (h1 : ¬ inp.elapsed > TIMEOUT)
    (h2 : getDeploymentStatus inp.statusResponse = none) :
    pollStep st inp = (st, { noEvents with requests := [.statusFetch] }) := by
  unfold pollStep
  rw [h0]
  simp only [if_neg h1, h2]

/-- The in-progress branch: state stays unresolved, log display and the
status notification happen. -/
lemma pollStep_inProgress (st : PollState) (inp : PollInput) (s : String)
    (h0 : st.resolution = none) (h1 : ¬ inp.elapsed > TIMEOUT)
    (h2 : getDeploymentStatus inp.statusResponse = some ⟨s⟩)
    (h3 : ¬ s = "finished") (h4 : ¬ (s = "failed" ∨ s = "failed-build"))
    (h5 : ¬ s = "cancelled") :
    pollStep st inp =
      ({ lastDisplayedLength := (cycleDisplay st inp).2,
         lastStatus := if s ≠ st.lastStatus then s else st.lastStatus,
         resolution := none },
       { requests := [.statusFetch, .logFetch],
         statusNotification := if s ≠ st.lastStatus then some s else none,
         displayedIncrement := (cycleDisplay st inp).1,
         finalDump := none }) := by
  unfold pollStep
  rw [h0]
  simp only [if_neg h1, h2, if_neg h3, if_neg h4, if_neg h5]

/-- The `finished` branch. -/
lemma pollStep_finished (st : PollState) (inp : PollInput)
    (h0 : st.resolution = none) (h1 : ¬ inp.elapsed > TIMEOUT)
    (h2 : getDeploymentStatus inp.statusResponse = some ⟨"finished"⟩) :
    pollStep st inp =
      ({ lastDisplayedLength := (cycleDisplay st inp).2,
         lastStatus :=
           if "finished" ≠ st.lastStatus then "finished" else st.lastStatus,
         resolution :=
           some (.resolved "finished" (getDeploymentOutput inp.logResponse)) },
       { requests := [.statusFetch, .logFetch],
         statusNotification :=
           if "finished" ≠ st.lastStatus then some "finished" else none,
         displayedIncrement := (cycleDisplay st inp).1,
         finalDump := none }) := by
  unfold pollStep
  rw [h0]
  simp only [if_neg h1, h2]
  simp

/-- The `failed` / `failed-build` branch: the dedicated final log fetch
happens and its content (when truthy) is dumped in full. -/
lemma pollStep_failed (st : PollState) (inp : PollInput) (s : String)
    (h0 : st.resolution = none) (h1 : ¬ inp.elapsed > TIMEOUT)
    (h2 : getDeploymentStatus inp.statusResponse = some ⟨s⟩)
    (h3 : s = "failed" ∨ s = "failed-build") :
    pollStep st inp =
      ({ lastDisplayedLength := (cycleDisplay st inp).2,
         lastStatus := if s ≠ st.lastStatus then s else st.lastStatus,
         resolution := some (.rejected ("Deployment " ++ s)) },
       { requests := [.statusFetch, .logFetch, .finalLogFetch],
         statusNotification := if s ≠ st.lastStatus then some s else none,
         displayedIncrement := (cycleDisplay st inp).1,
         finalDump :=
           finalDumpOf (getDeploymentOutput inp.finalLogResponse) }) := by
  have h3' : ¬ s = "finished" := by
    rcases h3 with h | h <;> simp [h]
  unfold pollStep
  rw [h0]
  simp only [if_neg h1, h2, if_neg h3', if_pos h3]

/-- The `cancelled` branch: the session rejects at once, with no final
log fetch and no final dump. -/
lemma pollStep_cancelled (st : PollState) (inp : PollInput)
    (h0 : st.resolution = none) (h1 : ¬ inp.elapsed > TIMEOUT)
    (h2 : getDeploymentStatus inp.statusResponse = some ⟨"cancelled"⟩) :
    pollStep st inp =
      ({ lastDisplayedLength := (cycleDisplay st inp).2,
         lastStatus :=
           if "cancelled" ≠ st.lastStatus then "cancelled" else st.lastStatus,
         resolution := some (.rejected "Deployment was cancelled") },
       { requests := [.statusFetch, .logFetch],
         statusNotification :=
           if "cancelled" ≠ st.lastStatus then some "cancelled" else none,
         displayedIncrement := (cycleDisplay st inp).1,
         finalDump := none }) := by
  unfold pollStep
  rw [h0]
  simp only [if_neg h1, h2]
  simp

/-- `displayLogs` never decreases the cursor. -/
lemma displayLogs_le (output : String) (cursor : Nat) :
    cursor ≤ (displayLogs output cursor).2 := by
  unfold displayLogs
  by_cases h : output = "" ∨ output.length ≤ cursor
  · simp [h]
  · have hlt : cursor < output.length := by
      rcases Nat.lt_or_ge cursor output.length with h1 | h1
      · exact h1
      · exact absurd (Or.inr h1) h
    by_cases h2 : hasNonWhitespace (output.drop cursor) = true
    · simp only [if_neg h, if_pos h2]
      exact Nat.le_of_lt hlt
    · simp only [if_neg h, if_neg h2]
      exact Nat.le_of_lt hlt

/-- The per-cycle log display never decreases the cursor. -/
lemma cycleDisplay_le (st : PollState) (inp : PollInput) :
    st.lastDisplayedLength ≤ (cycleDisplay st inp).2 := by
  unfold cycleDisplay
  cases h : getDeploymentOutput inp.logResponse with
  | none => simp
  | some o =>
    by_cases h2 : o ≠ ""
    · simp only [if_pos h2]
      exact displayLogs_le o st.lastDisplayedLength
    · simp [h2]

/-- One tick never decreases the cursor. -/
lemma pollStep_len_le (st : PollState) (inp : PollInput) :
    st.lastDisplayedLength ≤ (pollStep st inp).1.lastDisplayedLength := by
  cases hres : st.resolution with
  | some r => rw [pollStep_settled st inp r hres]
  | none =>
    by_cases h1 : inp.elapsed > TIMEOUT
    · rw [pollStep_timeout st inp hres h1]
    · cases h2 : getDeploymentStatus inp.statusResponse with
      | none => rw [pollStep_statusNone st inp hres h1 h2]
      | some attrs =>
        obtain ⟨s⟩ := attrs
        by_cases hfin : s = "finished"
        · subst hfin
          rw [pollStep_finished st inp hres h1 h2]
          exact cycleDisplay_le st inp
        · by_cases hfail : s = "failed" ∨ s = "failed-build"
          · rw [pollStep_failed st inp s hres h1 h2 hfail]
            exact cycleDisplay_le st inp
          · by_cases hcan : s = "cancelled"
            · subst hcan
              rw [pollStep_cancelled st inp hres h1 h2]
              exact cycleDisplay_le st inp
            · rw [pollStep_inProgress st inp s hres h1 h2 hfin hfail hcan]
              exact cycleDisplay_le st inp

/-- The cursor is monotonically non-decreasing over a whole run. -/
lemma runPollFrom_len_le (st : PollState) (inputs : List PollInput) :
    st.lastDisplayedLength ≤ (runPollFrom st inputs).1.lastDisplayedLength := by
  induction inputs generalizing st with
  | nil => exact Nat.le_refl _
  | cons inp rest ih =>
    calc st.lastDisplayedLength
        ≤ (pollStep st inp).1.lastDisplayedLength := pollStep_len_le st inp
      _ ≤ (runPollFrom (pollStep st inp).1 rest).1.lastDisplayedLength :=
          ih (pollStep st inp).1
      _ = (runPollFrom st (inp :: rest)).1.lastDisplayedLength := rfl

/-- The status-fetch failures named by the spec: a rejected request
(transport or parse error) or a non-200 HTTP status. -/
def statusFetchFailed (r : ApiResponse (Option StatusAttrs)) : Prop :=
  match r with
  | .err _ => True
  | .ok statusCode _ => statusCode ≠ 200

instance (r : ApiResponse (Option StatusAttrs)) :
    Decidable (statusFetchFailed r) := by
  unfold statusFetchFailed
  cases r with
  | err m => exact inferInstanceAs (Decidable True)
  | ok c d => exact inferInstanceAs (Decidable (c ≠ 200))

/-- A failed status fetch yields `null`. -/
lemma getDeploymentStatus_of_failed (r : ApiResponse (Option StatusAttrs))
    (h : statusFetchFailed r) : getDeploymentStatus r = none := by
  unfold getDeploymentStatus
  cases r with
  | err m => rfl
  | ok c d =>
    have h' : c ≠ 200 := h
    simp [h']

/-- Once settled, the final state of any continuation is unchanged. -/
lemma runPollFrom_fst_of_isSome (st : PollState) (inputs : List PollInput)
    (h : st.resolution.isSome = true) : (runPollFrom st inputs).1 = st := by
  obtain ⟨r, hr⟩ := Option.isSome_iff_exists.mp h
  rw [runPollFrom_settled st inputs r hr]

/-- The positions of a status sequence at which the value differs from
the previously observed one (initially `prev`): where the code prints a
`📊 Status:` line. -/
def changePoints (prev : String) : List String → List String
  | [] => []
  | s :: rest =>
    if s ≠ prev then s :: changePoints s rest else changePoints prev rest

/-! ### Claim theorems -/

/-- C2, counterexample: for the fetched log `" "` (one space) and prior
cursor 0, the log is strictly longer than the cursor, yet the displayed
increment is not the suffix `" "` — nothing is displayed (the
whitespace-only suffix is suppressed) although the cursor advances to 1.
This refutes the claim that a strictly longer log always displays exactly
the suffix past the cursor. -/
theorem c2_counterexample :
    0 < String.length " " ∧
    (displayLogs " " 0).1 ≠ some (String.drop " " 0) ∧
    (displayLogs " " 0).1 = none ∧
    (displayLogs " " 0).2 = 1 := by
  decide

/-- C2, amended: if the fetched log is strictly longer than the cursor,
the new cursor equals the log's length and the displayed increment is
exactly the suffix past the cursor — unless that suffix is
whitespace-only, in which case nothing is displayed; if the log is
shorter than or equal in length to the cursor, nothing is displayed and
the cursor is unchanged.  The cursor is monotonically non-decreasing,
both per call and over any whole polling run.  Concretely, log `"AB"`
then `"ABCD"` displays exactly `"CD"`, and `"AB"` then `"AB"` displays
nothing with the cursor staying at 2. -/
theorem c2_amended (output : String) (cursor : Nat) :
    (cursor < output.length →
      (displayLogs output cursor).2 = output.length ∧
      (hasNonWhitespace (output.drop cursor) = true →
        (displayLogs output cursor).1 = some (output.drop cursor)) ∧
      (hasNonWhitespace (output.drop cursor) = false →
        (displayLogs output cursor).1 = none)) ∧
    (output.length ≤ cursor → displayLogs output cursor = (none, cursor)) ∧
    cursor ≤ (displayLogs output cursor).2 ∧
    (∀ (st : PollState) (inputs : List PollInput),
      st.lastDisplayedLength ≤ (runPollFrom st inputs).1.lastDisplayedLength) ∧
    displayLogs "ABCD" 2 = (some "CD", 4) ∧
    displayLogs "AB" 2 = (none, 2) := by
  refine ⟨?_, ?_, displayLogs_le output cursor, runPollFrom_len_le,
    by decide, by decide⟩
  · intro hlt
    have hneg : ¬ (output = "" ∨ output.length ≤ cursor) := by
      rintro (h | h)
      · have h0 : String.length "" = 0 := rfl
        rw [h, h0] at hlt
        exact absurd hlt (Nat.not_lt_zero cursor)
      · omega
    refine ⟨?_, ?_, ?_⟩
    · by_cases hw : hasNonWhitespace (output.drop cursor) = true <;>
        simp [displayLogs, if_neg hneg, hw]
    · intro hw
      simp [displayLogs, if_neg hneg, hw]
    · intro hw
      simp [displayLogs, if_neg hneg, hw]
  · intro hle
    have : output = "" ∨ output.length ≤ cursor := Or.inr hle
    simp [displayLogs, if_pos this]

/-- C2, witness for the amended theorem at concrete inputs. -/
theorem c2_amended_witness :
    (displayLogs "ABX" 2).1 = some "X" ∧ (displayLogs "AB" 2).1 = none := by
  constructor
  · have h := (c2_amended "ABX" 2).1 (by decide)
    have h2 := h.2.1 (by decide)
    rw [h2]
    decide
  · have h := (c2_amended "AB" 2).2.1 (by decide)
    rw [h]

/-- C8: when the fetched log is longer than the cursor but the new
suffix consists only of whitespace characters, nothing is displayed yet
the cursor still advances to the new log length. -/
theorem c8_whitespace_only_suffix (output : String) (cursor : Nat)
    (h1 : cursor < output.length)
    (h2 : ∀ c ∈ (output.drop cursor).data, isJsWhitespace c = true) :
    (displayLogs output cursor).1 = none ∧
    (displayLogs output cursor).2 = output.length := by
  have hw : hasNonWhitespace (output.drop cursor) = false := by
    unfold hasNonWhitespace
    rw [List.any_eq_false]
    intro c hc
    simp [h2 c hc]
  have hneg : ¬ (output = "" ∨ output.length ≤ cursor) := by
    rintro (h | h)
    · have h0 : String.length "" = 0 := rfl
      rw [h, h0] at h1
      exact absurd h1 (Nat.not_lt_zero cursor)
    · omega
  constructor <;> simp [displayLogs, if_neg hneg, hw]

/-- C8, witness: log `"AB \n"` with cursor 2 — the suffix `" \n"` is
whitespace-only, nothing is displayed, the cursor advances to 4. -/
theorem c8_witness :
    (displayLogs "AB \n" 2).1 = none ∧
    (displayLogs "AB \n" 2).2 = String.length "AB \n" :=
  c8_whitespace_only_suffix "AB \n" 2 (by decide) (by decide)

/-- C9: whenever any of the four required configuration values is
missing or empty, `main` exits with code 1 before any network activity
(zero trigger attempts, polling never entered), and the report lists
exactly the names of the missing variables — every one of them, in
declaration order, not just the first. -/
theorem c9_missing_env (env : Env) (trig : ApiResponse (Option TriggerBody))
    (pollInputs : List PollInput) (h : missingVars env ≠ []) :
    main env trig pollInputs =
      { exitCode := some 1, missingReported := missingVars env,
        triggerAttempts := 0, enteredPolling := false, finalError := none } ∧
    missingVars env =
      (if jsTruthy env.FORGE_API_TOKEN then [] else ["FORGE_API_TOKEN"]) ++
      (if jsTruthy env.FORGE_ORGANIZATION then [] else ["FORGE_ORGANIZATION"]) ++
      (if jsTruthy env.FORGE_SERVER_ID then [] else ["FORGE_SERVER_ID"]) ++
      (if jsTruthy env.FORGE_SITE_ID then [] else ["FORGE_SITE_ID"]) := by
  constructor
  · unfold main validateEnvironment
    rw [if_neg h]
  · unfold missingVars requiredVars
    cases h1 : jsTruthy env.FORGE_API_TOKEN <;>
    cases h2 : jsTruthy env.FORGE_ORGANIZATION <;>
    cases h3 : jsTruthy env.FORGE_SERVER_ID <;>
    cases h4 : jsTruthy env.FORGE_SITE_ID <;>
      simp [h1, h2, h3, h4]

/-- C9, witness: with all four variables missing, all four names are
reported. -/
theorem c9_witness :
    (main ⟨none, none, none, none⟩ (ApiResponse.err "e") []).missingReported =
      ["FORGE_API_TOKEN", "FORGE_ORGANIZATION",
       "FORGE_SERVER_ID", "FORGE_SITE_ID"] := by
  have h := c9_missing_env ⟨none, none, none, none⟩ (ApiResponse.err "e") []
    (by decide)
  rw [h.1]
  decide

/-- C3: the 600-second (600000 ms) ceiling is checked at the top of every
cycle of a RUNNING session, before any network call of that cycle; once
elapsed time exceeds it the session transitions to `TIMED_OUT` with no
request issued that cycle, and over any continuation — including one
where the remote status would have stayed `deploying` forever — the state
never changes again and no further requests or output events occur. -/
theorem c3_timeout_ceiling (st : PollState) (inp : PollInput)
    (rest : List PollInput)
    (h0 : st.resolution = none) (h1 : inp.elapsed > TIMEOUT) :
    TIMEOUT = 600 * 1000 ∧
    specState (pollStep st inp).1 = SpecState.TIMED_OUT ∧
    (pollStep st inp).2.requests = [] ∧
    (runPollFrom (pollStep st inp).1 rest).1 = (pollStep st inp).1 ∧
    (∀ ev ∈ (runPollFrom (pollStep st inp).1 rest).2, ev = noEvents) := by
  have hstep := pollStep_timeout st inp h0 h1
  rw [hstep]
  have hsettled := runPollFrom_settled
    ({ st with resolution := some (.rejected "Deployment timeout") }) rest
    (.rejected "Deployment timeout") rfl
  refine ⟨rfl, by simp [specState], rfl, ?_, ?_⟩
  · rw [hsettled]
  · rw [hsettled]
    intro ev hev
    simp only [List.mem_map] at hev
    obtain ⟨a, _, hfa⟩ := hev
    exact hfa.symm

/-- C3, witness: an expired tick on a fresh session with status still
`deploying` resolves `TIMED_OUT` with no request, and a further
`deploying` tick changes nothing. -/
theorem c3_witness :
    specState (pollStep initialPollState
      ⟨600001, ApiResponse.ok 200 (some ⟨"deploying"⟩),
       ApiResponse.err "e", ApiResponse.err "e"⟩).1 = SpecState.TIMED_OUT ∧
    (pollStep initialPollState
      ⟨600001, ApiResponse.ok 200 (some ⟨"deploying"⟩),
       ApiResponse.err "e", ApiResponse.err "e"⟩).2.requests = [] := by
  have h := c3_timeout_ceiling initialPollState
    ⟨600001, ApiResponse.ok 200 (some ⟨"deploying"⟩),
     ApiResponse.err "e", ApiResponse.err "e"⟩
    [⟨600011, ApiResponse.ok 200 (some ⟨"deploying"⟩),
      ApiResponse.err "e", ApiResponse.err "e"⟩]
    rfl (by decide)
  exact ⟨h.2.1, h.2.2.1⟩

/-- C4: a poll cycle whose status fetch fails — rejected request
(transport or parse error) or non-200 HTTP status — leaves the session
state untouched and unresolved (still RUNNING), issues only the status
request, prints nothing, and the run continues exactly as if the cycle
had not happened, so a later successful fetch resumes normal
evaluation. -/
theorem c4_transient_status_failure (st : PollState) (inp : PollInput)
    (rest : List PollInput)
    (h0 : st.resolution = none) (h1 : ¬ inp.elapsed > TIMEOUT)
    (h2 : statusFetchFailed inp.statusResponse) :
    pollStep st inp = (st, { noEvents with requests := [.statusFetch] }) ∧
    specState (pollStep st inp).1 = SpecState.RUNNING ∧
    (runPollFrom st (inp :: rest)).1 = (runPollFrom st rest).1 ∧
    (runPollFrom st (inp :: rest)).2 =
      { noEvents with requests := [.statusFetch] } ::
        (runPollFrom st rest).2 := by
  have hs := getDeploymentStatus_of_failed _ h2
  have hstep := pollStep_statusNone st inp h0 h1 hs
  refine ⟨hstep, ?_, ?_, ?_⟩
  · rw [hstep]
    simp [specState, h0]
  · simp only [runPollFrom, hstep]
  · simp only [runPollFrom, hstep]

/-- C4, witness: a parse-error cycle on a fresh session is skipped and a
following successful `deploying` fetch is evaluated normally. -/
theorem c4_witness :
    pollStep initialPollState
      ⟨0, ApiResponse.err "Failed to parse JSON response: x",
       ApiResponse.err "e", ApiResponse.err "e"⟩ =
      (initialPollState, { noEvents with requests := [.statusFetch] }) ∧
    (runPollFrom initialPollState
      [⟨0, ApiResponse.err "Failed to parse JSON response: x",
        ApiResponse.err "e", ApiResponse.err "e"⟩,
       ⟨10, ApiResponse.ok 200 (some ⟨"deploying"⟩),
        ApiResponse.err "e", ApiResponse.err "e"⟩]).1.lastStatus =
      "deploying" := by
  have h := c4_transient_status_failure initialPollState
    ⟨0, ApiResponse.err "Failed to parse JSON response: x",
     ApiResponse.err "e", ApiResponse.err "e"⟩
    [⟨10, ApiResponse.ok 200 (some ⟨"deploying"⟩),
      ApiResponse.err "e", ApiResponse.err "e"⟩]
    rfl (by decide) (by decide)
  refine ⟨h.1, ?_⟩
  rw [h.2.2.1]
  decide

/-- C5: a trigger call answered with any HTTP status other than 202
fails the whole session at once: exit code 1, exactly one trigger
attempt (no retry), the polling phase never entered, and the error is
the status-code mapping's classification (with the remote `message`
appended when present); 404 maps to the resource-not-found message. -/
theorem c5_trigger_failure (env : Env) (statusCode : Nat)
    (body : Option TriggerBody) (pollInputs : List PollInput)
    (henv : missingVars env = []) (hcode : statusCode ≠ 202) :
    main env (ApiResponse.ok statusCode body) pollInputs =
      { exitCode := some 1, missingReported := [], triggerAttempts := 1,
        enteredPolling := false,
        finalError := some (handleApiError statusCode
          (body.bind (fun b => b.message))) } ∧
    handleApiError 404 none =
      "Resource not found. Please check your organization, server, and site IDs." := by
  constructor
  · have hcd : createDeployment (ApiResponse.ok statusCode body) =
        .error (handleApiError statusCode (body.bind fun b => b.message)) := by
      simp only [createDeployment]
      rw [if_pos hcode]
    unfold main validateEnvironment
    rw [if_pos henv, hcd]
  · decide

/-- C5, witness: a 404 trigger response ends the session immediately
with the resource-not-found classification and polling never starts. -/
theorem c5_witness :
    main ⟨some "t", some "o", some "1", some "2"⟩
      (ApiResponse.ok 404 none) [] =
      { exitCode := some 1, missingReported := [], triggerAttempts := 1,
        enteredPolling := false,
        finalError := some
          "Resource not found. Please check your organization, server, and site IDs." } := by
  have h := c5_trigger_failure ⟨some "t", some "o", some "1", some "2"⟩
    404 none [] (by decide) (by decide)
  rw [h.1]
  decide

/-- C1, counterexample: a session observing terminal-failure status
`cancelled` does resolve FAILED with an identifying error, but performs
no final log fetch and emits no final diagnostic dump — even when log
content is available — refuting the claim that every terminal-failure
value (`failed`, `failed-build`, or `cancelled`) triggers one final log
fetch whose content is emitted in full. -/
theorem c1_counterexample :
    specState (pollStep initialPollState
      ⟨0, ApiResponse.ok 200 (some ⟨"cancelled"⟩),
       ApiResponse.ok 200 (some ⟨some "LOG"⟩),
       ApiResponse.ok 200 (some ⟨some "LOG"⟩)⟩).1 = SpecState.FAILED ∧
    Request.finalLogFetch ∉ (pollStep initialPollState
      ⟨0, ApiResponse.ok 200 (some ⟨"cancelled"⟩),
       ApiResponse.ok 200 (some ⟨some "LOG"⟩),
       ApiResponse.ok 200 (some ⟨some "LOG"⟩)⟩).2.requests ∧
    (pollStep initialPollState
      ⟨0, ApiResponse.ok 200 (some ⟨"cancelled"⟩),
       ApiResponse.ok 200 (some ⟨some "LOG"⟩),
       ApiResponse.ok 200 (some ⟨some "LOG"⟩)⟩).2.finalDump = none := by
  decide

/-- C1, amended: when a running, non-expired cycle observes a
terminal-failure status, the session resolves FAILED with an error
identifying which value occurred, and no further cycle changes the
state.  For `failed` and `failed-build` the cycle additionally performs
the dedicated final log fetch and emits the fetched log in full as the
diagnostic dump (when it is non-empty, even if part was already shown
incrementally); for `cancelled` it rejects at once with no final log
fetch and no dump. -/
theorem c1_amended (st : PollState) (inp : PollInput)
    (rest : List PollInput) (s : String)
    (h0 : st.resolution = none) (h1 : ¬ inp.elapsed > TIMEOUT)
    (h2 : getDeploymentStatus inp.statusResponse = some ⟨s⟩)
    (h3 : s = "failed" ∨ s = "failed-build" ∨ s = "cancelled") :
    specState (pollStep st inp).1 = SpecState.FAILED ∧
    ((s = "failed" ∨ s = "failed-build") →
      (pollStep st inp).1.resolution =
        some (.rejected ("Deployment " ++ s)) ∧
      (pollStep st inp).2.requests =
        [.statusFetch, .logFetch, .finalLogFetch] ∧
      ∀ f, getDeploymentOutput inp.finalLogResponse = some f → f ≠ "" →
        (pollStep st inp).2.finalDump = some f) ∧
    (s = "cancelled" →
      (pollStep st inp).1.resolution =
        some (.rejected "Deployment was cancelled") ∧
      (pollStep st inp).2.requests = [.statusFetch, .logFetch] ∧
      (pollStep st inp).2.finalDump = none) ∧
    (runPollFrom (pollStep st inp).1 rest).1 = (pollStep st inp).1 := by
  rcases h3 with h | h | h
  · subst h
    have hstep := pollStep_failed st inp "failed" h0 h1 h2 (Or.inl rfl)
    rw [hstep]
    refine ⟨by simp [specState], ?_, ?_, ?_⟩
    · intro _
      refine ⟨rfl, rfl, ?_⟩
      intro f hf hne
      simp [finalDumpOf, hf, hne]
    · intro hcon
      exact absurd hcon (by decide)
    · exact runPollFrom_fst_of_isSome _ rest rfl
  · subst h
    have hstep := pollStep_failed st inp "failed-build" h0 h1 h2 (Or.inr rfl)
    rw [hstep]
    refine ⟨by simp [specState], ?_, ?_, ?_⟩
    · intro _
      refine ⟨rfl, rfl, ?_⟩
      intro f hf hne
      simp [finalDumpOf, hf, hne]
    · intro hcon
      exact absurd hcon (by decide)
    · exact runPollFrom_fst_of_isSome _ rest rfl
  · subst h
    have hstep := pollStep_cancelled st inp h0 h1 h2
    rw [hstep]
    refine ⟨by simp [specState], ?_, ?_, ?_⟩
    · rintro (hcon | hcon) <;> exact absurd hcon (by decide)
    · intro _
      exact ⟨rfl, rfl, rfl⟩
    · exact runPollFrom_fst_of_isSome _ rest rfl

/-- C1, witness for the amended theorem: a `failed` cycle rejects with
`Deployment failed`, issues the final log fetch, and dumps the fetched
log in full. -/
theorem c1_amended_witness :
    (pollStep initialPollState
      ⟨0, ApiResponse.ok 200 (some ⟨"failed"⟩), ApiResponse.err "e",
       ApiResponse.ok 200 (some ⟨some "FULL LOG"⟩)⟩).1.resolution =
      some (.rejected "Deployment failed") ∧
    (pollStep initialPollState
      ⟨0, ApiResponse.ok 200 (some ⟨"failed"⟩), ApiResponse.err "e",
       ApiResponse.ok 200 (some ⟨some "FULL LOG"⟩)⟩).2.finalDump =
      some "FULL LOG" := by
  have h := c1_amended initialPollState
    ⟨0, ApiResponse.ok 200 (some ⟨"failed"⟩), ApiResponse.err "e",
     ApiResponse.ok 200 (some ⟨some "FULL LOG"⟩)⟩
    [] "failed" rfl (by decide) rfl (Or.inl rfl)
  have h2 := h.2.1 (Or.inl rfl)
  refine ⟨?_, h2.2.2 "FULL LOG" rfl (by decide)⟩
  rw [h2.1]
  decide

/-- C10: when a `failed` or `failed-build` status is observed but the
dedicated final log fetch fails (`null`) or yields the empty string, the
session still resolves FAILED by rejecting with the error naming that
terminal status, and simply emits no diagnostic dump — the missing log
never changes the outcome. -/
theorem c10_failed_without_final_log (st : PollState) (inp : PollInput)
    (s : String)
    (h0 : st.resolution = none) (h1 : ¬ inp.elapsed > TIMEOUT)
    (h2 : getDeploymentStatus inp.statusResponse = some ⟨s⟩)
    (h3 : s = "failed" ∨ s = "failed-build")
    (h4 : getDeploymentOutput inp.finalLogResponse = none ∨
          getDeploymentOutput inp.finalLogResponse = some "") :
    (pollStep st inp).1.resolution =
      some (.rejected ("Deployment " ++ s)) ∧
    specState (pollStep st inp).1 = SpecState.FAILED ∧
    (pollStep st inp).2.finalDump = none := by
  have hstep := pollStep_failed st inp s h0 h1 h2 h3
  rw [hstep]
  refine ⟨rfl, ?_, ?_⟩
  · rcases h3 with h | h <;> subst h <;> simp [specState]
  · rcases h4 with h | h <;> simp [finalDumpOf, h]

/-- C10, witness: a `failed-build` cycle whose final log fetch is
rejected still rejects the session with `Deployment failed-build` and
dumps nothing. -/
theorem c10_witness :
    (pollStep initialPollState
      ⟨0, ApiResponse.ok 200 (some ⟨"failed-build"⟩), ApiResponse.err "e",
       ApiResponse.err "e"⟩).1.resolution =
      some (.rejected "Deployment failed-build") ∧
    (pollStep initialPollState
      ⟨0, ApiResponse.ok 200 (some ⟨"failed-build"⟩), ApiResponse.err "e",
       ApiResponse.err "e"⟩).2.finalDump = none := by
  have h := c10_failed_without_final_log initialPollState
    ⟨0, ApiResponse.ok 200 (some ⟨"failed-build"⟩), ApiResponse.err "e",
     ApiResponse.err "e"⟩
    "failed-build" rfl (by decide) rfl (Or.inr rfl) (Or.inl rfl)
  refine ⟨?_, h.2.2⟩
  rw [h.1]
  decide

/-- The terminal statuses of the polling loop's three terminal branches
(`finished`, `failed`, `failed-build`, `cancelled`). -/
def isTerminalStatus (s : String) : Bool :=
  s == "finished" || s == "failed" || s == "failed-build" || s == "cancelled"

/-- The prefix of a supplied status sequence the session actually
observes: everything up to and including the first terminal status (the
loop settles on that cycle, so later values are never fetched). -/
def untilTerminal : List String → List String
  | [] => []
  | s :: rest =>
    if isTerminalStatus s then [s] else s :: untilTerminal rest

/-- Ticks of a settled session contribute no notifications. -/
lemma notificationsOf_map_noEvents (l : List PollInput) :
    notificationsOf (l.map (fun _ => noEvents)) = [] := by
  induction l with
  | nil => rfl
  | cons a l ih =>
    unfold notificationsOf at ih ⊢
    rw [List.map_cons, List.filterMap_cons_none]
    · exact ih
    · rfl

/-- A settled session emits no further notifications. -/
lemma notificationsOf_settled (st : PollState) (inputs : List PollInput)
    (h : st.resolution.isSome = true) :
    notificationsOf (runPollFrom st inputs).2 = [] := by
  obtain ⟨r, hr⟩ := Option.isSome_iff_exists.mp h
  rw [runPollFrom_settled st inputs r hr]
  exact notificationsOf_map_noEvents inputs

/-- A cycle observing a terminal status settles the session and still
emits the usual change-based notification first. -/
lemma pollStep_terminal (st : PollState) (inp : PollInput) (s : String)
    (h0 : st.resolution = none) (h1 : ¬ inp.elapsed > TIMEOUT)
    (h2 : getDeploymentStatus inp.statusResponse = some ⟨s⟩)
    (hterm : s = "finished" ∨ s = "failed" ∨ s = "failed-build" ∨
      s = "cancelled") :
    (pollStep st inp).1.resolution.isSome = true ∧
    (pollStep st inp).2.statusNotification =
      (if s ≠ st.lastStatus then some s else none) := by
  rcases hterm with h | h | h | h
  · subst h
    rw [pollStep_finished st inp h0 h1 h2]
    exact ⟨rfl, rfl⟩
  · subst h
    rw [pollStep_failed st inp "failed" h0 h1 h2 (Or.inl rfl)]
    exact ⟨rfl, rfl⟩
  · subst h
    rw [pollStep_failed st inp "failed-build" h0 h1 h2 (Or.inr rfl)]
    exact ⟨rfl, rfl⟩
  · subst h
    rw [pollStep_cancelled st inp h0 h1 h2]
    exact ⟨rfl, rfl⟩

/-- Over any run of non-expired cycles whose status fetches succeed —
terminal values included — the notification sequence is `changePoints`
of the observed status sequence (the supplied statuses up to and
including the first terminal one), seeded with the current
`lastStatus`. -/
lemma notificationsOf_run (st : PollState) (inputs : List PollInput)
    (statuses : List String) (h0 : st.resolution = none)
    (h : List.Forall₂ (fun inp s =>
      inp.elapsed ≤ TIMEOUT ∧
      getDeploymentStatus inp.statusResponse = some ⟨s⟩) inputs statuses) :
    notificationsOf (runPollFrom st inputs).2 =
      changePoints st.lastStatus (untilTerminal statuses) := by
  induction h generalizing st with
  | nil => rfl
  | cons hrel hrest ih =>
    rename_i inp s inputs' statuses'
    obtain ⟨helap, hstat⟩ := hrel
    have h1 : ¬ inp.elapsed > TIMEOUT := not_lt.mpr helap
    have hrun : runPollFrom st (inp :: inputs') =
        ((runPollFrom (pollStep st inp).1 inputs').1,
         (pollStep st inp).2 :: (runPollFrom (pollStep st inp).1 inputs').2) :=
      rfl
    rw [hrun]
    by_cases hterm : isTerminalStatus s = true
    · have hterm' : s = "finished" ∨ s = "failed" ∨ s = "failed-build" ∨
          s = "cancelled" := by
        have h2x := hterm
        simp only [isTerminalStatus, Bool.or_eq_true, beq_iff_eq] at h2x
        tauto
      obtain ⟨hsett, hnot⟩ := pollStep_terminal st inp s h0 h1 hstat hterm'
      have htail := notificationsOf_settled (pollStep st inp).1 inputs' hsett
      rw [untilTerminal, if_pos hterm]
      by_cases hch : s = st.lastStatus
      · have hne : ¬ (s ≠ st.lastStatus) := not_not_intro hch
        unfold notificationsOf
        rw [List.filterMap_cons_none]
        · unfold notificationsOf at htail
          rw [htail, changePoints, if_neg hne]
          rfl
        · rw [hnot]
          exact if_neg hne
      · have hne : s ≠ st.lastStatus := hch
        unfold notificationsOf
        rw [List.filterMap_cons_some]
        · unfold notificationsOf at htail
          rw [htail, changePoints, if_pos hne]
          rfl
        · rw [hnot]
          exact if_pos hne
    · have h2x := hterm
      simp only [isTerminalStatus, Bool.or_eq_true, beq_iff_eq, not_or] at h2x
      obtain ⟨⟨⟨hfin, hfail1⟩, hfail2⟩, hcan⟩ := h2x
      have hfail : ¬ (s = "failed" ∨ s = "failed-build") := by
        rintro (h | h)
        · exact hfail1 h
        · exact hfail2 h
      have hstep := pollStep_inProgress st inp s h0 h1 hstat hfin hfail hcan
      rw [hstep, untilTerminal, if_neg hterm]
      by_cases hch : s = st.lastStatus
      · have hne : ¬ (s ≠ st.lastStatus) := not_not_intro hch
        rw [if_neg hne, if_neg hne, changePoints, if_neg hne]
        unfold notificationsOf
        rw [List.filterMap_cons_none]
        · exact ih _ rfl
        · rfl
      · have hne : s ≠ st.lastStatus := hch
        rw [if_pos hne, if_pos hne, changePoints, if_pos hne]
        unfold notificationsOf
        rw [List.filterMap_cons_some]
        · have ihx := ih ⟨(cycleDisplay st inp).2, s, none⟩ rfl
          unfold notificationsOf at ihx
          rw [ihx]
        · rfl

/-- C6, counterexample: over the successfully fetched status sequence
`deploying, queued, deploying` (three in-progress values, two distinct),
the monitor emits three status-change notifications — the distinct value
`deploying` is notified twice — refuting "exactly one notification per
distinct status value observed". -/
theorem c6_counterexample :
    notificationsOf (runPoll
      [⟨0, ApiResponse.ok 200 (some ⟨"deploying"⟩),
        ApiResponse.err "e", ApiResponse.err "e"⟩,
       ⟨0, ApiResponse.ok 200 (some ⟨"queued"⟩),
        ApiResponse.err "e", ApiResponse.err "e"⟩,
       ⟨0, ApiResponse.ok 200 (some ⟨"deploying"⟩),
        ApiResponse.err "e", ApiResponse.err "e"⟩]).2 =
      ["deploying", "queued", "deploying"] ∧
    (notificationsOf (runPoll
      [⟨0, ApiResponse.ok 200 (some ⟨"deploying"⟩),
        ApiResponse.err "e", ApiResponse.err "e"⟩,
       ⟨0, ApiResponse.ok 200 (some ⟨"queued"⟩),
        ApiResponse.err "e", ApiResponse.err "e"⟩,
       ⟨0, ApiResponse.ok 200 (some ⟨"deploying"⟩),
        ApiResponse.err "e", ApiResponse.err "e"⟩]).2).count "deploying" =
      2 := by
  decide

/-- C6, amended: over any sequence of successfully fetched status
values — terminal values included — the monitor emits exactly one
status-change notification per poll cycle whose status differs from the
previously observed one (one per change, not one per poll cycle): the
notification sequence equals `changePoints` of the observed status
sequence, which runs up to and including the first terminal status (the
session settles on that cycle and fetches nothing afterwards).
Consecutive repeats of a status emit nothing; a value recurring after an
intervening different value is notified again, so "one per distinct
value" holds exactly for observed sequences in which no value recurs. -/
theorem c6_amended (inputs : List PollInput) (statuses : List String)
    (h : List.Forall₂ (fun inp s =>
      inp.elapsed ≤ TIMEOUT ∧
      getDeploymentStatus inp.statusResponse = some ⟨s⟩) inputs statuses) :
    notificationsOf (runPoll inputs).2 =
      changePoints "" (untilTerminal statuses) :=
  notificationsOf_run initialPollState inputs statuses rfl h

/-- C6, witness for the amended theorem: statuses
`deploying, deploying, finished` produce exactly the notifications
`deploying, finished` — the repeat emits nothing and the terminal cycle
is still notified. -/
theorem c6_amended_witness :
    notificationsOf (runPoll
      [⟨0, ApiResponse.ok 200 (some ⟨"deploying"⟩),
        ApiResponse.err "e", ApiResponse.err "e"⟩,
       ⟨10000, ApiResponse.ok 200 (some ⟨"deploying"⟩),
        ApiResponse.err "e", ApiResponse.err "e"⟩,
       ⟨20000, ApiResponse.ok 200 (some ⟨"finished"⟩),
        ApiResponse.ok 200 (some ⟨some "LOG"⟩),
        ApiResponse.err "e"⟩]).2 = ["deploying", "finished"] := by
  have h := c6_amended
    [⟨0, ApiResponse.ok 200 (some ⟨"deploying"⟩),
      ApiResponse.err "e", ApiResponse.err "e"⟩,
     ⟨10000, ApiResponse.ok 200 (some ⟨"deploying"⟩),
      ApiResponse.err "e", ApiResponse.err "e"⟩,
     ⟨20000, ApiResponse.ok 200 (some ⟨"finished"⟩),
      ApiResponse.ok 200 (some ⟨some "LOG"⟩),
      ApiResponse.err "e"⟩]
    ["deploying", "deploying", "finished"]
    (List.Forall₂.cons ⟨by decide, rfl⟩
      (List.Forall₂.cons ⟨by decide, rfl⟩
        (List.Forall₂.cons ⟨by decide, rfl⟩
          List.Forall₂.nil)))
  rw [h]
  decide

/-- A trigger call classified as successful lets `main` proceed to the
polling phase. -/
lemma main_enteredPolling (env : Env) (trig : ApiResponse (Option TriggerBody))
    (pollInputs : List PollInput) (i : Option Nat)
    (henv : missingVars env = []) (hid : createDeployment trig = .ok i) :
    (main env trig pollInputs).enteredPolling = true := by
  unfold main validateEnvironment
  rw [if_pos henv, hid]
  cases hres : (runPoll pollInputs).1.resolution with
  | none => rfl
  | some r => cases r <;> rfl

/-- C7, counterexample: a trigger call returning HTTP 202 with payload
`{data: {}}` — no identifier field — does not fail with a
malformed-response error: `createDeployment` returns the `undefined`
handle (`none`) and the session proceeds to the polling phase. -/
theorem c7_counterexample :
    createDeployment (ApiResponse.ok 202 (some ⟨some ⟨none⟩, none⟩)) =
      Except.ok none ∧
    (main ⟨some "t", some "o", some "1", some "2"⟩
      (ApiResponse.ok 202 (some ⟨some ⟨none⟩, none⟩))
      []).enteredPolling = true :=
  ⟨rfl, rfl⟩

/-- C7, amended: on HTTP 202, a payload whose data object lacks the
identifier field yields the `undefined` deployment handle and the
session proceeds to the polling phase (no malformed-response error); a
payload lacking the data object entirely (or a null body) makes the
property access throw, failing the trigger with a generic TypeError
rather than a dedicated malformed-response classification. -/
theorem c7_amended (msg : Option String) (env : Env)
    (pollInputs : List PollInput) (henv : missingVars env = []) :
    createDeployment (ApiResponse.ok 202 (some ⟨some ⟨none⟩, msg⟩)) =
      Except.ok none ∧
    createDeployment (ApiResponse.ok 202 none) =
      Except.error typeErrorUndefined ∧
    createDeployment (ApiResponse.ok 202 (some ⟨none, msg⟩)) =
      Except.error typeErrorUndefined ∧
    (main env (ApiResponse.ok 202 (some ⟨some ⟨none⟩, msg⟩))
      pollInputs).enteredPolling = true :=
  ⟨rfl, rfl, rfl, main_enteredPolling env _ pollInputs none henv rfl⟩

/-- C7, witness for the amended theorem at a concrete environment. -/
theorem c7_amended_witness :
    (main ⟨some "t", some "o", some "1", some "2"⟩
      (ApiResponse.ok 202 (some ⟨some ⟨none⟩, some "queued"⟩))
      []).enteredPolling = true :=
  (c7_amended (some "queued") ⟨some "t", some "o", some "1", some "2"⟩ []
    (by decide)).2.2.2

end Forge
